import Mathlib

/-!
Shallow embedding of the ad-creative generation backend
(`app/main.py`, `app/image_gen.py`, `app/openai_api.py`).

Conventions of the embedding:
* Python dicts of request parameters become insertion-ordered association
  lists `List (String × String)`; values that are not strings in the source
  (the integer `n`, `output_compression`, the image/mask file objects) are
  rendered as placeholder strings, since the claims only concern which keys
  are present and which string values are carried.
* Exceptions become `Except String α`; an external collaborator call that may
  throw is passed in as an `Except String β` oracle outcome.
* Writes to disk are tracked as counters / lists of identifiers.
-/

namespace AdCreative

/-- Look up the value stored under a key in a parameter association list
(first hit wins, like a Python dict that is built without key reuse). -/
def getParam (k : String) : List (String × String) → Option String
  | [] => none
  | (k', v) :: rest => if k = k' then some v else getParam k rest

/-! ### `image_gen.generate_image`: transport parameter construction

Mirrors the `params` dict built at `image_gen.py:84-103`:
`model`, `prompt`, `n` always; `size`, `background`, `quality` only when
different from `"auto"`; `output_format` always; `output_compression` when
given. -/

def generate_image_params (enhanced_prompt size background quality output_format : String)
    (output_compression : Option Nat) : List (String × String) :=
  [("model", "gpt-image-1"), ("prompt", enhanced_prompt), ("n", "1")]
    ++ (if size = "auto" then [] else [("size", size)])
    ++ (if background = "auto" then [] else [("background", background)])
    ++ (if quality = "auto" then [] else [("quality", quality)])
    ++ [("output_format", output_format)]
    ++ (match output_compression with
        | some c => [("output_compression", toString c)]
        | none => [])

/-! ### `image_gen.edit_image`: transport parameter construction

Mirrors the `params` dict built at `image_gen.py:138-174`: `model`, `prompt`,
`n`, `background`, `quality` always (including literal `"auto"`), then the
image files, the optional mask, `size` only when different from `"auto"`,
and `output_compression` when given. -/

def edit_image_params (prompt background quality : String) (nImages : Nat)
    (hasMask : Bool) (size : String) (output_compression : Option Nat) :
    List (String × String) :=
  [("model", "gpt-image-1"), ("prompt", prompt), ("n", "1"),
   ("background", background), ("quality", quality),
   ("image", "files:" ++ toString nImages)]
    ++ (if hasMask then [("mask", "mask-file")] else [])
    ++ (if size = "auto" then [] else [("size", size)])
    ++ (match output_compression with
        | some c => [("output_compression", toString c)]
        | none => [])

/-! ### `image_gen.generate_image`: reference-image processing loop

`image_gen.py:41-81`. Each reference image is normalised and sent to the
vision collaborator; the per-image outcome (the stripped style description,
or the text of the exception that was raised while normalising or calling
the vision model) is the oracle `Except String String`. A failure on image
`idx` is re-raised as
`"Failed to process reference image {idx+1}: {msg}"` and aborts the loop. -/

/-- The message of the exception re-raised at `image_gen.py:71-73` when
processing reference image number `i` (0-based) fails with `e`. -/
def refFailMsg (i : Nat) (e : String) : String :=
  "Failed to process reference image " ++ toString (i + 1) ++ ": " ++ e

def processRefs : List (Except String String) → Nat → Except String (List String)
  | [], _ => .ok []
  | .ok s :: rest, i =>
    match processRefs rest (i + 1) with
    | .ok l => .ok (s :: l)
    | .error e => .error e
  | .error e :: _, i => .error (refFailMsg i e)

/-- The whole of `generate_image` (`image_gen.py:35-112`) up to the
collaborator `images.generate` call: `.ok params` means the pipeline reached
the collaborator and issued exactly one `generateImage` call with `params`;
`.error msg` means the run raised before any generation call, wrapped by the
outer handler as `"Error generating image: ..."`. `refs` holds one oracle
outcome per supplied reference image (`[]` = no reference images). -/
def generate_image_run (refs : List (Except String String))
    (prompt size background quality output_format : String)
    (output_compression : Option Nat) :
    Except String (List (String × String)) :=
  match refs with
  | [] => .ok (generate_image_params prompt size background quality output_format
      output_compression)
  | _ =>
    match processRefs refs 0 with
    | .error e => .error ("Error generating image: " ++ e)
    | .ok descs =>
      if descs.isEmpty then
        .error "Error generating image: No style descriptions were generated from reference images"
      else
        .ok (generate_image_params
          (prompt ++ ". Style hints: " ++ String.intercalate "; " descs)
          size background quality output_format output_compression)

/-! ### Error classification in `image_gen.edit_image` and the endpoint wrapper

`image_gen.py:183-205`: the error text is lower-cased and searched for
`"quota"`, then `"rate limit"`; the two special cases raise
`HTTPException(429, ...)` with distinct messages, everything else
`HTTPException(500, "Error editing image: ...")`. -/

/-- Does the character list `s` start with `pat`? -/
def startsWithChars : List Char → List Char → Bool
  | _, [] => true
  | [], _ :: _ => false
  | c :: cs, p :: ps => c == p && startsWithChars cs ps

/-- Does `pat` occur as a contiguous run inside `s`? -/
def containsChars : List Char → List Char → Bool
  | [], pat => pat.isEmpty
  | c :: cs, pat => startsWithChars (c :: cs) pat || containsChars cs pat

/-- Python's `pat in s` substring test. -/
def strContains (s pat : String) : Bool := containsChars s.data pat.data

/-- The Python `s.lower()` method. -/
def pyLower (s : String) : String := ⟨s.data.map Char.toLower⟩

/-- Status code and detail of the `HTTPException` raised by
`edit_image` when the collaborator call fails with message `msg`. -/
def edit_image_error_response (msg : String) : Nat × String :=
  if strContains (pyLower msg) "quota" then
    (429, "OpenAI API quota exceeded. Please try again later or check your API key.")
  else if strContains (pyLower msg) "rate limit" then
    (429, "OpenAI API rate limit reached. Please try again later.")
  else
    (500, "Error editing image: " ++ msg)

/-- Rendering of a starlette `HTTPException` by the Python `str()` function:
the status code, then a colon and a space, then the detail. -/
def httpExceptionStr (r : Nat × String) : String := toString r.1 ++ ": " ++ r.2

/-- `main.py:216-218`: `edit_image_endpoint` wraps the body in
`except Exception as e: raise HTTPException(500, f"Error editing image: {str(e)}")`.
Since `HTTPException` is an `Exception`, the classified response raised by
`edit_image` is itself caught and re-wrapped; this is the response the HTTP
caller actually receives when the collaborator fails with `msg`. -/
def edit_endpoint_error_response (msg : String) : Nat × String :=
  (500, "Error editing image: " ++ httpExceptionStr (edit_image_error_response msg))

/-! ### Endpoint validation (`main.py`)

`create_image` (`main.py:83-87`) checks only `size`;
`edit_image_endpoint` (`main.py:156-172`) checks `size`, `background` and
`quality`. Neither endpoint validates `output_format`. -/

def SUPPORTED_SIZES : List String := ["1024x1024", "1024x1536", "1536x1024", "auto"]

def SUPPORTED_BACKGROUNDS : List String := ["transparent", "opaque", "auto"]

def SUPPORTED_QUALITIES : List String := ["standard", "low", "medium", "high", "auto"]

inductive RejectReason
  | invalidSize
  | invalidBackground
  | invalidQuality
deriving DecidableEq, Repr

/-- The `/generate-image/` endpoint up to the collaborator call, with no
reference images supplied: `.error r` means the request was rejected with an
HTTP 400 before any collaborator call; `.ok params` means the generation
collaborator was invoked with `params`. -/
def create_image_run (prompt size background quality output_format : String)
    (output_compression : Option Nat) :
    Except RejectReason (List (String × String)) :=
  if size ∈ SUPPORTED_SIZES then
    .ok (generate_image_params prompt size background quality output_format
      output_compression)
  else
    .error .invalidSize

/-- The `/edit-image/` endpoint up to the collaborator call: `.error r` means
an HTTP 400 rejection before any collaborator call; `.ok params` means
`edit_image` was reached and issued one `editImage` call with `params`. -/
def edit_endpoint_run (prompt : String) (nImages : Nat) (hasMask : Bool)
    (size background quality : String) (output_compression : Option Nat) :
    Except RejectReason (List (String × String)) :=
  if size ∈ SUPPORTED_SIZES then
    if background ∈ SUPPORTED_BACKGROUNDS then
      if quality ∈ SUPPORTED_QUALITIES then
        .ok (edit_image_params prompt background quality nImages hasMask size
          output_compression)
      else .error .invalidQuality
    else .error .invalidBackground
  else .error .invalidSize

/-! ### Prompt composition of the five flows (`openai_api.py`)

Each flow concatenates the ad-text instruction with its own literal:
`generate_ad_image` (line 25), `modify_image` (line 117),
`generate_with_multiple_references` (line 264) and `edit_image_with_mask`
(line 368) all use `". Include the following text in the ad: '...'"`, while
`generate_with_reference_image` (line 196) uses
`". Include the following text: '...'"`. -/

def generate_ad_image_prompt (prompt : String) (ad_text : Option String) : String :=
  match ad_text with
  | none => prompt
  | some t => prompt ++ ". Include the following text in the ad: '" ++ t ++ "'"

def modify_image_prompt (image_analysis modification_prompt : String)
    (ad_text : Option String) : String :=
  let base := "Image content: " ++ image_analysis ++ ". Modification request: "
    ++ modification_prompt
  match ad_text with
  | none => base
  | some t => base ++ ". Include the following text in the ad: '" ++ t ++ "'"

def multi_reference_prompt (prompt : String) (ad_text : Option String) : String :=
  match ad_text with
  | none => prompt
  | some t => prompt ++ ". Include the following text in the ad: '" ++ t ++ "'"

def mask_edit_prompt (prompt : String) (ad_text : Option String) : String :=
  match ad_text with
  | none => prompt
  | some t => prompt ++ ". Include the following text in the ad: '" ++ t ++ "'"

/-- Enhanced prompt of `generate_with_reference_image`
(`openai_api.py:193-196`): the style hint is always appended, and the ad-text
literal lacks the words "in the ad". -/
def reference_style_prompt (prompt style_description : String)
    (ad_text : Option String) : String :=
  let base := prompt ++ ". Style hint: " ++ style_description
  match ad_text with
  | none => base
  | some t => base ++ ". Include the following text: '" ++ t ++ "'"

/-! ### `generate_with_reference_image` (`openai_api.py:154-219`)

The vision call is wrapped in `try/except` (lines 177-191): on failure the
style description silently degrades to `""` and the run continues. The
generation call (lines 199-205) is not guarded; its failure propagates and
nothing is written. On success exactly one output file is written to
`static/generated`. Oracles: `vision` is the outcome of the style-extraction
call (`.ok` carries the stripped description), `gen` the outcome of the
`images.generate` call. -/

structure RefStyleTrace where
  /-- Holds `.ok enhanced_prompt` when the call returns, `.error e` when it raises. -/
  result : Except String String
  /-- whether the `images.generate` collaborator call was issued -/
  genCalled : Bool
  /-- the prompt carried by that call -/
  genPrompt : String
  /-- number of output files written -/
  writes : Nat
deriving Repr

def generate_with_reference_image_run (vision : Except String String)
    (gen : Except String String) (prompt : String) (ad_text : Option String) :
    RefStyleTrace :=
  let style := match vision with
    | .ok s => s
    | .error _ => ""
  let ep := reference_style_prompt prompt style ad_text
  match gen with
  | .error e => { result := .error e, genCalled := true, genPrompt := ep, writes := 0 }
  | .ok _ => { result := .ok ep, genCalled := true, genPrompt := ep, writes := 1 }

/-! ### Temporary-file cleanup (`openai_api.py`)

Each pipeline is modelled as its sequence of fallible steps; a run records
which temporary files were created and which the `finally` block deleted.
Temporary files are numbered in order of creation. -/

structure RunTrace where
  tempCreated : List Nat
  tempDeleted : List Nat
  failed : Bool
deriving DecidableEq, Repr

/-- Outcome of processing one reference image inside
`generate_with_multiple_references` (`openai_api.py:239-259`). The temp path
is appended to `temp_input_paths` before the file is opened, so a failure
can strike either before the temp file exists on disk (the `open`/write
itself fails) or after (PIL normalisation fails). -/
inductive RefStep
  | okStep
  | failBeforeWrite
  | failAfterWrite
deriving DecidableEq, Repr

/-- The per-image loop of `generate_with_multiple_references`, numbering
images from `i`: returns (paths appended to `temp_input_paths`, temp files
actually created on disk, whether the loop raised). -/
def multiRefLoop : List RefStep → Nat → List Nat × List Nat × Bool
  | [], _ => ([], [], false)
  | .okStep :: rest, i =>
    let r := multiRefLoop rest (i + 1)
    (i :: r.1, i :: r.2.1, r.2.2)
  | .failBeforeWrite :: _, i => ([i], [], true)
  | .failAfterWrite :: _, i => ([i], [i], true)

/-- A full run of `generate_with_multiple_references`
(`openai_api.py:233-301`): the loop, then (when the loop survived) the
`images.edit` call whose success is `apiOk`; the `finally` block walks every
appended path and deletes those that exist on disk. -/
def multi_reference_run (steps : List RefStep) (apiOk : Bool) : RunTrace :=
  let r := multiRefLoop steps 0
  { tempCreated := r.2.1,
    tempDeleted := r.1.filter (fun x => decide (x ∈ r.2.1)),
    failed := r.2.2 || !apiOk }

/-- The `try` body of `edit_image_with_mask` (`openai_api.py:324-410`):
temp file 0 is the input image, temp file 1 the mask (only when
`hasMask`). Returns (temp files created, whether the body raised). -/
def maskEditBody (hasMask inputWriteOk imageProcOk maskWriteOk maskProcOk apiOk : Bool) :
    List Nat × Bool :=
  if !inputWriteOk then ([], true)
  else if !imageProcOk then ([0], true)
  else if hasMask then
    if !maskWriteOk then ([0], true)
    else if !maskProcOk then ([0, 1], true)
    else ([0, 1], !apiOk)
  else ([0], !apiOk)

/-- A full run of `edit_image_with_mask` (`openai_api.py:319-418`): the
`finally` block (lines 413-418) removes the input temp file if it exists and
the mask temp file if a mask was supplied and it exists. -/
def mask_edit_run (hasMask inputWriteOk imageProcOk maskWriteOk maskProcOk apiOk : Bool) :
    RunTrace :=
  let r := maskEditBody hasMask inputWriteOk imageProcOk maskWriteOk maskProcOk apiOk
  { tempCreated := r.1,
    tempDeleted :=
      (if 0 ∈ r.1 then [0] else [])
        ++ (if hasMask ∧ 1 ∈ r.1 then [1] else []),
    failed := r.2 }

/-- The `try` body of `modify_image` (`openai_api.py:95-148`): one input temp
file (number 0); the content-analysis failure is caught inside the body and
does not raise, so only the write, the PIL processing and the generation
call can fail. -/
def modifyBody (inputWriteOk procOk apiOk : Bool) : List Nat × Bool :=
  if !inputWriteOk then ([], true)
  else if !procOk then ([0], true)
  else ([0], !apiOk)

/-- A full run of `modify_image` (`openai_api.py:82-152`): the `finally`
block (lines 149-152) removes the input temp file if it exists. -/
def modify_image_run (inputWriteOk procOk apiOk : Bool) : RunTrace :=
  let r := modifyBody inputWriteOk procOk apiOk
  { tempCreated := r.1,
    tempDeleted := if 0 ∈ r.1 then [0] else [],
    failed := r.2 }

/-! ### Mask normalisation (`openai_api.py:344-358`)

PIL images are modelled per mode as flat pixel lists; `convert("RGBA")`
follows PIL's mode conversions, `putalpha` replaces the alpha band. In the
source, an `L`-mode mask is first converted to RGBA (the unused
`split()` is dropped) and then `putalpha(mask)` installs the original
luminance values as the alpha band; an RGBA mask passes through; any other
mode is converted directly to RGBA. -/

inductive MaskImage
  | L (px : List Nat)
  | LA (px : List (Nat × Nat))
  | RGB (px : List (Nat × Nat × Nat))
  | RGBA (px : List (Nat × Nat × Nat × Nat))
deriving DecidableEq, Repr

/-- PIL `Image.convert("RGBA")` on each mode. -/
def convertRGBA : MaskImage → List (Nat × Nat × Nat × Nat)
  | .L px => px.map (fun v => (v, v, v, 255))
  | .LA px => px.map (fun p => (p.1, p.1, p.1, p.2))
  | .RGB px => px.map (fun p => (p.1, p.2.1, p.2.2, 255))
  | .RGBA px => px

/-- PIL `putalpha`: replace the alpha band by the given luminance band. -/
def putalpha (img : List (Nat × Nat × Nat × Nat)) (alpha : List Nat) :
    List (Nat × Nat × Nat × Nat) :=
  List.zipWith (fun p a => (p.1, p.2.1, p.2.2.1, a)) img alpha

/-- The mask-normalisation branch of `edit_image_with_mask`
(`openai_api.py:347-358`). -/
def process_mask : MaskImage → List (Nat × Nat × Nat × Nat)
  | .RGBA px => px
  | .L px => putalpha (convertRGBA (.L px)) px
  | m => convertRGBA m

/-- The alpha band of an RGBA pixel list. -/
def alphaBand (img : List (Nat × Nat × Nat × Nat)) : List Nat :=
  img.map (fun p => p.2.2.2)

/-- The ad-text instruction used by `generate_ad_image`, `modify_image`,
`generate_with_multiple_references` and `edit_image_with_mask`. -/
def ad_text_suffix (t : String) : String :=
  ". Include the following text in the ad: '" ++ t ++ "'"

/-- The (shorter) ad-text instruction used by
`generate_with_reference_image` (`openai_api.py:196`). -/
def ref_ad_text_suffix (t : String) : String :=
  ". Include the following text: '" ++ t ++ "'"

/-! ### Helper lemmas -/

theorem multiRefLoop_le (steps : List RefStep) :
    ∀ i, ∀ x ∈ (multiRefLoop steps i).1, i ≤ x := by
  induction steps with
  | nil => intro i x hx; simp [multiRefLoop] at hx
  | cons hd tl ih =>
    intro i x hx
    cases hd <;> simp [multiRefLoop] at hx
    · rcases hx with rfl | hx
      · exact Nat.le_refl x
      · exact Nat.le_of_succ_le (ih (i + 1) x hx)
    · omega
    · omega

theorem multiRefLoop_filter (steps : List RefStep) :
    ∀ i, (multiRefLoop steps i).1.filter (fun x => decide (x ∈ (multiRefLoop steps i).2.1))
      = (multiRefLoop steps i).2.1 := by
  induction steps with
  | nil => intro i; rfl
  | cons hd tl ih =>
    intro i
    cases hd
    case failBeforeWrite => simp [multiRefLoop]
    case failAfterWrite => simp [multiRefLoop]
    case okStep =>
      simp only [multiRefLoop, List.filter_cons]
      have h0 : decide (i ∈ i :: (multiRefLoop tl (i + 1)).2.1) = true := by simp
      rw [h0, if_pos rfl]
      have hcong : (multiRefLoop tl (i + 1)).1.filter
          (fun x => decide (x ∈ i :: (multiRefLoop tl (i + 1)).2.1))
          = (multiRefLoop tl (i + 1)).1.filter
            (fun x => decide (x ∈ (multiRefLoop tl (i + 1)).2.1)) := by
        refine List.filter_congr ?_
        intro x hx
        have hle := multiRefLoop_le tl (i + 1) x hx
        simp [List.mem_cons]
        omega
      rw [hcong, ih (i + 1)]

theorem multiRefLoop_failed (steps : List RefStep) :
    ∀ i, (multiRefLoop steps i).2.2
      = steps.any (fun s => match s with | .okStep => false | _ => true) := by
  induction steps with
  | nil => intro i; rfl
  | cons hd tl ih =>
    intro i
    cases hd <;> simp [multiRefLoop, ih (i + 1)]

theorem processRefs_append_error (pre : List (Except String String)) (e : String)
    (suf : List (Except String String)) :
    ∀ i, (∀ x ∈ pre, x.isOk = true) →
      processRefs (pre ++ .error e :: suf) i = .error (refFailMsg (i + pre.length) e) := by
  induction pre with
  | nil => intro i h; simp [processRefs]
  | cons hd tl ih =>
    intro i h
    cases hd with
    | error e' =>
      have := h (.error e') (by simp)
      simp [Except.isOk, Except.toBool] at this
    | ok s =>
      have htl : ∀ x ∈ tl, x.isOk = true := fun x hx => h x (by simp [hx])
      simp only [List.cons_append, processRefs, List.append_eq]
      rw [ih (i + 1) htl]
      exact congrArg (fun n => (Except.error (refFailMsg n e) : Except String (List String)))
        (by simp only [List.length_cons]; omega)

/-! ### Claim theorems -/

/-- C1, counterexample: in `generate_with_reference_image`, when the
style-extraction (vision) call throws and the generation call succeeds, the
call does NOT fail — it returns successfully, the generation collaborator is
invoked with a degraded (empty) style hint, and one artifact write occurs.
This refutes the claim that a style-extraction failure aborts the
reference-style-transfer call with zero writes. -/
theorem C1_counterexample :
    generate_with_reference_image_run (.error "vision timeout") (.ok "imagebytes")
      "a sneaker ad" none
      = { result := .ok "a sneaker ad. Style hint: ", genCalled := true,
          genPrompt := "a sneaker ad. Style hint: ", writes := 1 } := rfl

/-- C1 (amended): in the reference-style-transfer flow a style-extraction
failure is non-fatal: the exception is caught, the style description
degrades to the empty string, and the pipeline always continues to
generation with the degraded style hint; the call fails (with zero writes)
exactly when the generation call itself fails, and on generation success one
artifact write occurs. -/
theorem C1_degraded_continue (e p : String) (gen : Except String String)
    (t : Option String) :
    (generate_with_reference_image_run (.error e) gen p t).genCalled = true ∧
    (generate_with_reference_image_run (.error e) gen p t).genPrompt
      = reference_style_prompt p "" t ∧
    (generate_with_reference_image_run (.error e) gen p t).result.isOk = gen.isOk ∧
    (generate_with_reference_image_run (.error e) gen p t).writes
      = (if gen.isOk then 1 else 0) := by
  cases gen <;> simp [generate_with_reference_image_run, Except.isOk, Except.toBool]

set_option maxRecDepth 8000 in
/-- C2: `edit_image` itself classifies collaborator failures exactly as the
claim says (quota and rate-limit messages map to distinct 429 responses,
everything else to a 500), but `edit_image_endpoint` wraps the body in a
blanket exception handler that catches the classified `HTTPException` and
re-raises it as a 500, so the HTTP caller receives a 500 even for quota and
rate-limit failures — the classification never reaches the caller. -/
theorem C2_classification_lost_at_endpoint :
    edit_image_error_response "You exceeded your current quota, please check your plan and billing details."
      = (429, "OpenAI API quota exceeded. Please try again later or check your API key.") ∧
    edit_image_error_response "Rate limit reached for gpt-image-1 in organization org-abc"
      = (429, "OpenAI API rate limit reached. Please try again later.") ∧
    edit_image_error_response "connection reset by peer"
      = (500, "Error editing image: connection reset by peer") ∧
    edit_endpoint_error_response "You exceeded your current quota, please check your plan and billing details."
      = (500, "Error editing image: 429: OpenAI API quota exceeded. Please try again later or check your API key.") ∧
    edit_endpoint_error_response "Rate limit reached for gpt-image-1 in organization org-abc"
      = (500, "Error editing image: 429: OpenAI API rate limit reached. Please try again later.") := by
  refine ⟨by decide, by decide, by decide, by decide, by decide⟩

/-- C3, counterexample: in `generate_image` with three reference images where
the second fails, the whole request aborts with a classified error — no
generation call is issued with the remaining images. This refutes the claim
that a per-image failure is skipped and generation proceeds. -/
theorem C3_counterexample :
    generate_image_run [.ok "minimal flat style", .error "vision call failed", .ok "bold colors"]
      "p" "1024x1024" "auto" "auto" "png" none
      = .error "Error generating image: Failed to process reference image 2: vision call failed" ∧
    (generate_image_run [.ok "minimal flat style", .error "vision call failed", .ok "bold colors"]
      "p" "1024x1024" "auto" "auto" "png" none).isOk = false := ⟨rfl, rfl⟩

/-- C3 (amended): a failure while processing any reference image aborts the
whole `generate_image` request with the error naming the failing image
(1-based), rather than skipping it; likewise in
`generate_with_multiple_references` the run fails whenever any per-image step
fails (or the collaborator call fails). -/
theorem C3_failure_aborts (pre : List (Except String String)) (e : String)
    (suf : List (Except String String)) (p s b q f : String) (oc : Option Nat)
    (steps : List RefStep) (apiOk : Bool)
    (h : ∀ x ∈ pre, x.isOk = true) :
    generate_image_run (pre ++ .error e :: suf) p s b q f oc
      = .error ("Error generating image: " ++ refFailMsg pre.length e) ∧
    (multi_reference_run steps apiOk).failed
      = (steps.any (fun st => match st with | .okStep => false | _ => true) || !apiOk) := by
  constructor
  · have hp := processRefs_append_error pre e suf 0 h
    rw [Nat.zero_add] at hp
    cases pre with
    | nil => simp only [List.nil_append] at hp ⊢; simp [generate_image_run, hp]
    | cons hd tl => simp only [List.cons_append] at hp ⊢; simp [generate_image_run, hp]
  · simp [multi_reference_run, multiRefLoop_failed steps 0]

/-- Witness for C3: the amended theorem evaluated with one successful
reference before the failing one. -/
theorem C3_failure_aborts_witness :
    generate_image_run [.ok "warm tones", .error "boom", .ok "crisp"]
      "p" "1024x1024" "auto" "auto" "png" none
      = .error "Error generating image: Failed to process reference image 2: boom" ∧
    (multi_reference_run [.okStep, .failAfterWrite, .okStep] true).failed = true := by
  have h := C3_failure_aborts [.ok "warm tones"] "boom" [.ok "crisp"]
    "p" "1024x1024" "auto" "auto" "png" none [.okStep, .failAfterWrite, .okStep] true
    (by intro x hx; rw [List.mem_singleton.mp hx]; rfl)
  exact ⟨h.1, by rw [h.2]; rfl⟩

/-- C4, counterexample: a request with an out-of-enum background
(`"purple"`) on the generate endpoint is NOT rejected — the collaborator is
invoked, and its call even carries the invalid background value; likewise an
out-of-enum output format (`"bmp"`) passes straight through. This refutes
the claim that all four of size, background, quality and format are
validated before any collaborator call. -/
theorem C4_counterexample :
    (create_image_run "p" "1024x1024" "purple" "auto" "png" none).isOk = true ∧
    getParam "background"
      (((create_image_run "p" "1024x1024" "purple" "auto" "png" none).toOption).getD [])
      = some "purple" ∧
    (create_image_run "p" "1024x1024" "auto" "high" "bmp" none).isOk = true := by
  refine ⟨by decide, by decide, by decide⟩

/-- C4 (amended): the generate endpoint rejects (client error, before any
collaborator call) exactly the requests whose size is outside the enumerated
set, and the edit endpoint exactly those whose size, background or quality
is outside its enumerated set; background, quality and output format are not
validated on the generate endpoint and output format is validated nowhere. -/
theorem C4_validation_exact (p s b q f : String) (oc : Option Nat)
    (nI : Nat) (hM : Bool) :
    (create_image_run p s b q f oc).isOk = decide (s ∈ SUPPORTED_SIZES) ∧
    (edit_endpoint_run p nI hM s b q oc).isOk
      = (decide (s ∈ SUPPORTED_SIZES) && decide (b ∈ SUPPORTED_BACKGROUNDS)
          && decide (q ∈ SUPPORTED_QUALITIES)) := by
  constructor
  · by_cases h : s ∈ SUPPORTED_SIZES <;>
      simp [create_image_run, h, Except.isOk, Except.toBool]
  · by_cases h1 : s ∈ SUPPORTED_SIZES <;> by_cases h2 : b ∈ SUPPORTED_BACKGROUNDS <;>
      by_cases h3 : q ∈ SUPPORTED_QUALITIES <;>
      simp [edit_endpoint_run, h1, h2, h3, Except.isOk, Except.toBool]

/-- C5, counterexample: in `generate_with_reference_image` the ad-text
instruction reads `". Include the following text: 'SALE'"` — the words
"in the ad" are missing — so the composed prompt does not end with the
claimed literal. This refutes the claim that the suffix is exactly
`". Include the following text in the ad: '<ad_text>'"` for every request
with ad text set. -/
theorem C5_counterexample :
    reference_style_prompt "a watch ad" "moody lighting" (some "SALE")
      = "a watch ad. Style hint: moody lighting. Include the following text: 'SALE'" ∧
    (". Include the following text in the ad: 'SALE'".data).isSuffixOf
      (reference_style_prompt "a watch ad" "moody lighting" (some "SALE")).data = false := by
  exact ⟨rfl, by decide⟩

/-- C5 (amended): when ad text is set the ad-text instruction is always the
final suffix of the composed prompt in every flow; its form is exactly
`". Include the following text in the ad: '<ad_text>'"` in
`generate_ad_image`, `modify_image`, `generate_with_multiple_references` and
`edit_image_with_mask`, but `". Include the following text: '<ad_text>'"`
(without "in the ad") in `generate_with_reference_image`. -/
theorem C5_suffix_forms (p analysis mp style t : String) :
    (ad_text_suffix t).data <:+ (generate_ad_image_prompt p (some t)).data ∧
    (ad_text_suffix t).data <:+ (modify_image_prompt analysis mp (some t)).data ∧
    (ad_text_suffix t).data <:+ (multi_reference_prompt p (some t)).data ∧
    (ad_text_suffix t).data <:+ (mask_edit_prompt p (some t)).data ∧
    (ref_ad_text_suffix t).data <:+ (reference_style_prompt p style (some t)).data ∧
    generate_ad_image_prompt p (some t) = p ++ ad_text_suffix t ∧
    reference_style_prompt p style (some t)
      = (p ++ ". Style hint: " ++ style) ++ ref_ad_text_suffix t := by
  refine ⟨⟨p.data, ?_⟩,
    ⟨("Image content: " ++ analysis ++ ". Modification request: " ++ mp).data, ?_⟩,
    ⟨p.data, ?_⟩, ⟨p.data, ?_⟩, ⟨(p ++ ". Style hint: " ++ style).data, ?_⟩, ?_, ?_⟩ <;>
    simp [generate_ad_image_prompt, modify_image_prompt, multi_reference_prompt,
      mask_edit_prompt, reference_style_prompt, ad_text_suffix, ref_ad_text_suffix,
      String.data_append, List.append_assoc]
  · apply String.ext
    simp [String.data_append, List.append_assoc]
  · apply String.ext
    simp [String.data_append, List.append_assoc]

/-- C6: in all three temp-file-using pipelines
(`generate_with_multiple_references`, `edit_image_with_mask`,
`modify_image`), for every run — wherever it fails, or on success — the set
of temporary files deleted by the `finally` block equals the set created. -/
theorem C6_cleanup_invariant :
    (∀ steps apiOk, (multi_reference_run steps apiOk).tempDeleted
      = (multi_reference_run steps apiOk).tempCreated) ∧
    (∀ hM iW iP mW mP aO, (mask_edit_run hM iW iP mW mP aO).tempDeleted
      = (mask_edit_run hM iW iP mW mP aO).tempCreated) ∧
    (∀ iW pO aO, (modify_image_run iW pO aO).tempDeleted
      = (modify_image_run iW pO aO).tempCreated) := by
  refine ⟨fun steps apiOk => ?_, by decide, by decide⟩
  simp [multi_reference_run, multiRefLoop_filter steps 0]

/-- C7, counterexample: the scenario call
`generate(prompt="a red car", size="1024x1024", background="auto",
quality="auto")` produces a collaborator call whose key set is
`[model, prompt, n, size, output_format]` — `output_format` (value `"png"`)
is always present, so the parameter set is not the claimed
`[model, prompt, n, size]`. -/
theorem C7_counterexample :
    (generate_image_params "a red car" "1024x1024" "auto" "auto" "png" none).map Prod.fst
      = ["model", "prompt", "n", "size", "output_format"] ∧
    getParam "output_format"
      (generate_image_params "a red car" "1024x1024" "auto" "auto" "png" none)
      = some "png" := by
  refine ⟨by decide, by decide⟩

/-- C7 (amended): `size`, `background` and `quality` are each omitted from
the generate transport call exactly when equal to `"auto"`; `output_format`
is always sent (even at its default `"png"`); the scenario call carries
exactly the parameters model, prompt, n, size and output_format, with no
background or quality keys. -/
theorem C7_omit_auto (p s b q f : String) (oc : Option Nat) :
    getParam "size" (generate_image_params p s b q f oc)
      = (if s = "auto" then none else some s) ∧
    getParam "background" (generate_image_params p s b q f oc)
      = (if b = "auto" then none else some b) ∧
    getParam "quality" (generate_image_params p s b q f oc)
      = (if q = "auto" then none else some q) ∧
    getParam "output_format" (generate_image_params p s b q f oc) = some f ∧
    generate_image_params "a red car" "1024x1024" "auto" "auto" "png" none
      = [("model", "gpt-image-1"), ("prompt", "a red car"), ("n", "1"),
         ("size", "1024x1024"), ("output_format", "png")] := by
  refine ⟨?_, ?_, ?_, ?_, by decide⟩ <;>
    cases oc <;> by_cases hs : s = "auto" <;> by_cases hb : b = "auto" <;>
      by_cases hq : q = "auto" <;>
      simp [generate_image_params, getParam, hs, hb, hq]

/-- C8: mask normalisation in `edit_image_with_mask` — a luminance-mode mask
yields an RGBA mask whose alpha band equals the input luminance values
exactly; an RGBA mask passes through unchanged; any other mode is converted
directly to RGBA (alpha preserved for LA, opaque for RGB). -/
theorem C8_mask_construction :
    (∀ px : List Nat, alphaBand (process_mask (.L px)) = px) ∧
    (∀ px : List (Nat × Nat × Nat × Nat), process_mask (.RGBA px) = px) ∧
    (∀ px : List (Nat × Nat × Nat), process_mask (.RGB px)
      = px.map (fun v => (v.1, v.2.1, v.2.2, 255))) ∧
    (∀ px : List (Nat × Nat), process_mask (.LA px)
      = px.map (fun v => (v.1, v.1, v.1, v.2))) := by
  refine ⟨fun px => ?_, fun px => rfl, fun px => rfl, fun px => rfl⟩
  induction px with
  | nil => rfl
  | cons hd tl ih =>
    simpa [process_mask, convertRGBA, putalpha, alphaBand] using ih

/-- C9: with zero reference images the prompt sent to the generation
collaborator equals the base prompt unchanged (`generate_image` adds no
"Style hints" segment), and in `generate_ad_image` the enhanced prompt is
the base prompt with exactly the ad-text suffix appended when ad text is
given. -/
theorem C9_no_refs_prompt (p s b q f t0 : String) (oc : Option Nat) :
    generate_image_run [] p s b q f oc = .ok (generate_image_params p s b q f oc) ∧
    getParam "prompt" (generate_image_params p s b q f oc) = some p ∧
    generate_ad_image_prompt p none = p ∧
    generate_ad_image_prompt p (some t0) = p ++ ad_text_suffix t0 := by
  refine ⟨rfl, ?_, rfl, ?_⟩
  · simp [generate_image_params, getParam]
  · apply String.ext
    simp [generate_ad_image_prompt, ad_text_suffix, String.data_append, List.append_assoc]

/-- C10: the edit transport call always carries the background and quality
keys with the caller values (including literal `"auto"`), while its size key
is omitted exactly when equal to `"auto"` — asymmetrically with the generate
path, which omits background and quality when `"auto"`. -/
theorem C10_edit_params_asymmetry (p s b q f : String) (nI : Nat) (hM : Bool)
    (oc : Option Nat) :
    getParam "background" (edit_image_params p b q nI hM s oc) = some b ∧
    getParam "quality" (edit_image_params p b q nI hM s oc) = some q ∧
    getParam "size" (edit_image_params p b q nI hM s oc)
      = (if s = "auto" then none else some s) ∧
    getParam "background" (generate_image_params p s b q f oc)
      = (if b = "auto" then none else some b) ∧
    getParam "quality" (generate_image_params p s b q f oc)
      = (if q = "auto" then none else some q) := by
  cases oc <;> cases hM <;> by_cases hs : s = "auto" <;> by_cases hb : b = "auto" <;>
    by_cases hq : q = "auto" <;>
    simp [edit_image_params, generate_image_params, getParam, hs, hb, hq]

end AdCreative
